import Mathlib

/-!
Verification of the GeoJSON decoder of `src/src/io/GeoJSONReader.cpp`.

The decoder consumes a generic JSON document tree (produced by an external
parser, `nlohmann::json`) and produces geometry values and tagged property
values.  We embed the document tree, the access primitives the decoder uses
(`operator[]` in its const and non-const overloads, `at`, the `get<T>`
conversions, `items()` iteration), and each reader function of the
`GeoJSONReader` class.  Doubles carry no arithmetic in this code — every
ordinate is only copied — so coordinates are represented by rationals.

Error model: `nlohmann` exceptions (`json::exception`, with its
`type_error` / `out_of_range` kinds) are distinguished from
`geos::io::ParseException`; the top-level `read` / `readFeatures`
entry points catch exactly the former and re-raise the fixed message
"Error parsing JSON".  A vector access that C++ leaves undefined
(out-of-bounds `operator[]`, `const` map access on a missing key) is made
explicit as an `undefinedBehavior` outcome.
-/

namespace GeoJSONReader

/- A JSON document tree.  Mirrors the node kinds of the external document
parser: null, boolean, number, string, array, object, plus the library's
non-JSON `binary` node kind (reachable only by building a tree in memory,
never from text).  Arrays and objects use bespoke list types so that all
recursion over the tree is structural. -/
mutual

inductive Json where
  | null : Json
  | bool (b : Bool) : Json
  | num (q : ℚ) : Json
  | str (s : String) : Json
  | arr (elems : JsonList) : Json
  | obj (entries : JsonObj) : Json
  | binary (bytes : List Nat) : Json

inductive JsonList where
  | nil : JsonList
  | cons (head : Json) (tail : JsonList) : JsonList

inductive JsonObj where
  | nil : JsonObj
  | cons (key : String) (value : Json) (tail : JsonObj) : JsonObj

end

/-- Kinds of `nlohmann::json::exception` the decoder can provoke:
`type_error` (codes 302/304/305), `out_of_range` (code 401) and
`parse_error` raised by `json::parse` on syntactically invalid text. -/
inductive JsonExc where
  | typeError (code : Nat) : JsonExc
  | outOfRange (code : Nat) : JsonExc
  | parseErr (code : Nat) : JsonExc
deriving DecidableEq, Repr

/-- Failure outcomes of a decode step: an in-flight `json::exception`
(caught at the top level), a `geos::io::ParseException` carrying its
message, or a C++ undefined-behavior point (out-of-bounds access). -/
inductive Err where
  | jsonExc (e : JsonExc) : Err
  | parseExc (msg : String) : Err
  | undefinedBehavior (what : String) : Err
deriving DecidableEq, Repr

/-- First-match association lookup in a JSON object node, as used by both
`operator[]` overloads. -/
def objLookup : JsonObj → String → Option Json
  | .nil, _ => none
  | .cons k' v rest, k => if k = k' then some v else objLookup rest k

/-- `j[key]` on a `const nlohmann::json&`: returns the mapped value of an
object; dereferences an end iterator (undefined behavior) when the key is
missing; throws `type_error` 305 on a non-object node. -/
def constIndex (j : Json) (k : String) : Except Err Json :=
  match j with
  | .obj kvs =>
    match objLookup kvs k with
    | some v => .ok v
    | none => .error (.undefinedBehavior "const operator[] on missing key")
  | _ => .error (.jsonExc (.typeError 305))

/-- `j[key]` on a non-const `nlohmann::json&`: inserts a null value when the
key is missing from an object (or when the node is null, which is first
turned into an empty object); throws `type_error` 305 otherwise. -/
def mutIndex (j : Json) (k : String) : Except Err Json :=
  match j with
  | .obj kvs => .ok ((objLookup kvs k).getD .null)
  | .null => .ok .null
  | _ => .error (.jsonExc (.typeError 305))

/-- `get<std::string>`: succeeds on a string node, else `type_error` 302. -/
def getString : Json → Except Err String
  | .str s => .ok s
  | _ => .error (.jsonExc (.typeError 302))

/-- `get<double>`: succeeds on a number node, else `type_error` 302. -/
def getDouble : Json → Except Err ℚ
  | .num q => .ok q
  | _ => .error (.jsonExc (.typeError 302))

/-- Element conversion loop of `get<std::vector<double>>`. -/
def getDoubles : JsonList → Except Err (List ℚ)
  | .nil => .ok []
  | .cons x rest => do
    let d ← getDouble x
    let ds ← getDoubles rest
    return d :: ds

/-- `get<std::vector<double>>`: requires an array node (else `type_error`
302), converting every element to a number. -/
def getDoubleArray : Json → Except Err (List ℚ)
  | .arr xs => getDoubles xs
  | _ => .error (.jsonExc (.typeError 302))

/-- `JsonList` length, used by `at` bounds checking. -/
def jsonListGet : JsonList → Nat → Option Json
  | .nil, _ => none
  | .cons x _, 0 => some x
  | .cons _ rest, n + 1 => jsonListGet rest n

/-- `j.at(i)`: element access with bounds checking; `out_of_range` 401 when
the index is past the end, `type_error` 304 on a non-array node. -/
def atIdx (j : Json) (i : Nat) : Except Err Json :=
  match j with
  | .arr xs =>
    match jsonListGet xs i with
    | some v => .ok v
    | none => .error (.jsonExc (.outOfRange 401))
  | _ => .error (.jsonExc (.typeError 304))

/-- `get<std::pair<double,double>>`: built from `at(0)` and `at(1)`, so a
leaf array keeps only its first two ordinates and any further entries are
ignored. -/
def getPair (j : Json) : Except Err (ℚ × ℚ) := do
  let a ← atIdx j 0 >>= getDouble
  let b ← atIdx j 1 >>= getDouble
  return (a, b)

/-- Element conversion loop of `get<std::vector<std::pair<double,double>>>`. -/
def getPairs : JsonList → Except Err (List (ℚ × ℚ))
  | .nil => .ok []
  | .cons x rest => do
    let p ← getPair x
    let ps ← getPairs rest
    return p :: ps

/-- `get<std::vector<std::pair<double,double>>>`. -/
def getPairList : Json → Except Err (List (ℚ × ℚ))
  | .arr xs => getPairs xs
  | _ => .error (.jsonExc (.typeError 302))

/-- Element conversion loop of the ring-list conversion. -/
def getRings : JsonList → Except Err (List (List (ℚ × ℚ)))
  | .nil => .ok []
  | .cons x rest => do
    let r ← getPairList x
    let rs ← getRings rest
    return r :: rs

/-- `get<std::vector<std::vector<std::pair<double,double>>>>`. -/
def getRingList : Json → Except Err (List (List (ℚ × ℚ)))
  | .arr xs => getRings xs
  | _ => .error (.jsonExc (.typeError 302))

/-- Element conversion loop of the polygon-list conversion. -/
def getPolys : JsonList → Except Err (List (List (List (ℚ × ℚ))))
  | .nil => .ok []
  | .cons x rest => do
    let p ← getRingList x
    let ps ← getPolys rest
    return p :: ps

/-- `get<std::vector<std::vector<std::vector<std::pair<double,double>>>>>`. -/
def getPolyList : Json → Except Err (List (List (List (ℚ × ℚ))))
  | .arr xs => getPolys xs
  | _ => .error (.jsonExc (.typeError 302))

/-- A coordinate: the first two ordinates of a leaf pair. -/
structure Coordinate where
  x : ℚ
  y : ℚ
deriving DecidableEq, Repr

/-- A linear ring, as assembled by `createLinearRing`: the literal ordered
coordinate sequence (the decoder performs no validity or orientation
processing; ring construction is the external factory's concern). -/
abbrev Ring := List Coordinate

/-- The geometry model produced by the factory calls the decoder makes.
`polygon none []` is the explicitly empty polygon of `createPolygon(2)`;
`point none` is the explicitly empty point of `createPoint(2)`. -/
inductive Geometry where
  | point (c : Option Coordinate) : Geometry
  | lineString (cs : List Coordinate) : Geometry
  | polygon (shell : Option Ring) (holes : List Ring) : Geometry
  | multiPoint (cs : List Coordinate) : Geometry
  | multiLineString (ls : List (List Coordinate)) : Geometry
  | multiPolygon (polys : List (Ring × List Ring)) : Geometry
  | collection (gs : List Geometry) : Geometry

/-- The coordinate-vector assembly loop shared by every reader
(`coordinates.push_back(Coordinate{coord.first, coord.second})`). -/
def buildCoordinates (coords : List (ℚ × ℚ)) : List Coordinate :=
  coords.map (fun coord => ⟨coord.1, coord.2⟩)

/-- Ring assembly loop of `readPolygon` / `readMultiPolygon`. -/
def buildRings (polygonCoords : List (List (ℚ × ℚ))) : List Ring :=
  polygonCoords.map buildCoordinates

/-- `GeoJSONReader::readPoint`: a one-ordinate array is rejected with a
ParseException, a zero-ordinate array yields the empty point, and otherwise
the first two ordinates become the coordinate. -/
def readPoint (j : Json) : Except Err Geometry := do
  let coords ← constIndex j "coordinates" >>= getDoubleArray
  if coords.length = 1 then
    Except.error (Err.parseExc "Expected two coordinates found one")
  else if coords.length < 2 then
    return Geometry.point none
  else
    return Geometry.point (some ⟨coords.getD 0 0, coords.getD 1 0⟩)

/-- `GeoJSONReader::readLineString`. -/
def readLineString (j : Json) : Except Err Geometry := do
  let coords ← constIndex j "coordinates" >>= getPairList
  return Geometry.lineString (buildCoordinates coords)

/-- `GeoJSONReader::readPolygon`: zero rings give the explicitly empty
polygon, one ring gives a polygon with no holes, otherwise ring 0 is the
exterior and rings 1.. are the interiors, in order. -/
def readPolygon (j : Json) : Except Err Geometry := do
  let polygonCoords ← constIndex j "coordinates" >>= getRingList
  let rings := buildRings polygonCoords
  match rings with
  | [] => return Geometry.polygon none []
  | [outerRing] => return Geometry.polygon (some outerRing) []
  | outerRing :: innerRings => return Geometry.polygon (some outerRing) innerRings

/-- `GeoJSONReader::readMultiPoint`. -/
def readMultiPoint (j : Json) : Except Err Geometry := do
  let coords ← constIndex j "coordinates" >>= getPairList
  return Geometry.multiPoint (buildCoordinates coords)

/-- `GeoJSONReader::readMultiLineString`. -/
def readMultiLineString (j : Json) : Except Err Geometry := do
  let listOfCoords ← constIndex j "coordinates" >>= getRingList
  return Geometry.multiLineString (listOfCoords.map buildCoordinates)

/-- Per-element polygon assembly loop of `GeoJSONReader::readMultiPolygon`.
The source checks `rings.size() == 1` and otherwise reads `rings[0]`
unconditionally, so a zero-ring element dereferences an empty vector:
that out-of-bounds access is surfaced as `undefinedBehavior`. -/
def buildPolygons : List (List (List (ℚ × ℚ))) → Except Err (List (Ring × List Ring))
  | [] => .ok []
  | polygonCoords :: more => do
    let rings := buildRings polygonCoords
    let poly ←
      if rings.length = 1 then
        Except.ok ((rings.getD 0 [], ([] : List Ring)))
      else
        match rings with
        | [] => Except.error (Err.undefinedBehavior "rings[0] on empty vector")
        | outerRing :: innerRings => Except.ok (outerRing, innerRings)
    let polys ← buildPolygons more
    return poly :: polys

/-- `GeoJSONReader::readMultiPolygon`. -/
def readMultiPolygon (j : Json) : Except Err Geometry := do
  let multiPolygonCoords ← constIndex j "coordinates" >>= getPolyList
  let polygons ← buildPolygons multiPolygonCoords
  return Geometry.multiPolygon polygons

/-- `JsonList` to ordinary list, for stating iteration lemmas. -/
def JsonList.toList : JsonList → List Json
  | .nil => []
  | .cons x rest => x :: JsonList.toList rest

/-- Values of a JSON object node, in entry order. -/
def JsonObj.values : JsonObj → List Json
  | .nil => []
  | .cons _ v rest => v :: JsonObj.values rest

/-- Range-based `for` over a `nlohmann::json` node: arrays iterate their
elements, objects their mapped values, null iterates zero times, and any
other node iterates exactly once over itself. -/
def jsonIter : Json → List Json
  | .null => []
  | .arr xs => xs.toList
  | .obj kvs => kvs.values
  | j => [j]

theorem sizeOf_objLookup {k : String} {v : Json} :
    ∀ {kvs : JsonObj}, objLookup kvs k = some v → sizeOf v < sizeOf kvs
  | .nil, h => by simp [objLookup] at h
  | .cons k' v' rest, h => by
    by_cases hk : k = k'
    · simp [objLookup, hk] at h
      subst h
      simp
      omega
    · simp [objLookup, hk] at h
      have := sizeOf_objLookup h
      simp
      omega

theorem sizeOf_constIndex {j : Json} {k : String} {v : Json}
    (h : constIndex j k = .ok v) : sizeOf v < sizeOf j := by
  cases j <;> simp [constIndex] at h
  case obj kvs =>
    cases hl : objLookup kvs k with
    | none => simp [hl] at h
    | some w =>
      simp [hl] at h
      subst h
      have := sizeOf_objLookup hl
      simp
      omega

theorem sizeOf_toList_mem {e : Json} :
    ∀ {xs : JsonList}, e ∈ xs.toList → sizeOf e < sizeOf xs
  | .nil, h => by simp [JsonList.toList] at h
  | .cons x rest, h => by
    simp [JsonList.toList] at h
    cases h with
    | inl h => subst h; simp; omega
    | inr h => have := sizeOf_toList_mem h; simp; omega

theorem sizeOf_values_mem {e : Json} :
    ∀ {kvs : JsonObj}, e ∈ kvs.values → sizeOf e < sizeOf kvs
  | .nil, h => by simp [JsonObj.values] at h
  | .cons k v rest, h => by
    simp [JsonObj.values] at h
    cases h with
    | inl h => subst h; simp; omega
    | inr h => have := sizeOf_values_mem h; simp; omega

theorem sizeOf_jsonIter {v e : Json} (h : e ∈ jsonIter v) :
    sizeOf e ≤ sizeOf v := by
  cases v with
  | arr xs =>
    have hx : e ∈ xs.toList := by simpa [jsonIter] using h
    have := sizeOf_toList_mem hx
    simp
    omega
  | obj kvs =>
    have hk : e ∈ kvs.values := by simpa [jsonIter] using h
    have := sizeOf_values_mem hk
    simp
    omega
  | null => simp [jsonIter] at h
  | bool b => simp [jsonIter] at h; subst h; exact le_refl _
  | num q => simp [jsonIter] at h; subst h; exact le_refl _
  | str s => simp [jsonIter] at h; subst h; exact le_refl _
  | binary bs => simp [jsonIter] at h; subst h; exact le_refl _

set_option linter.unusedVariables false in
/-- `GeoJSONReader::readGeometry`: dispatch on the node's "type" string
over the seven geometry kinds, with the `readGeometryCollection` body
(which recursively re-enters `readGeometry` on every element of the
"geometries" field, in document order) inlined as the collection arm. -/
def readGeometry (j : Json) : Except Err Geometry :=
  match constIndex j "type" >>= getString with
  | .error e => .error e
  | .ok type =>
    if type = "Point" then readPoint j
    else if type = "LineString" then readLineString j
    else if type = "Polygon" then readPolygon j
    else if type = "MultiPoint" then readMultiPoint j
    else if type = "MultiLineString" then readMultiLineString j
    else if type = "MultiPolygon" then readMultiPolygon j
    else if type = "GeometryCollection" then
      match hg : constIndex j "geometries" with
      | .error e => .error e
      | .ok jsonGeometries =>
        match (jsonIter jsonGeometries).attach.mapM
            (fun e => readGeometry e.1) with
        | .error e => .error e
        | .ok gs => .ok (.collection gs)
    else .error (.parseExc "Unknown geometry type!")
termination_by sizeOf j
decreasing_by
  have h1 := sizeOf_constIndex hg
  have h2 := sizeOf_jsonIter e.2
  omega

/-- The tagged property-value model `GeoJSONValue`: Null, Boolean,
Number (double), String, Sequence, or keyed Mapping.  The mapping is the
association-list image of a `std::map<std::string, GeoJSONValue>`, so its
entries are kept in key-sorted order. -/
inductive GeoJSONValue where
  | nullVal : GeoJSONValue
  | boolVal (b : Bool) : GeoJSONValue
  | doubleVal (d : ℚ) : GeoJSONValue
  | stringVal (s : String) : GeoJSONValue
  | arrayVal (vs : List GeoJSONValue) : GeoJSONValue
  | objectVal (entries : List (String × GeoJSONValue)) : GeoJSONValue

/-- Lexicographic comparison of character lists (an executable image of the
`std::less<std::string>` byte order; UTF-8 byte order and code-point order
coincide). -/
def charListLt : List Char → List Char → Bool
  | [], [] => false
  | [], _ :: _ => true
  | _ :: _, [] => false
  | a :: as, b :: bs =>
    if a < b then true
    else if b < a then false
    else charListLt as bs

/-- The key order of `std::map<std::string, ...>`. -/
def keyLt (a b : String) : Bool := charListLt a.data b.data

/-- `map[key] = value` on a `std::map<std::string, GeoJSONValue>` kept as a
key-sorted association list: walk to the ordered position, replacing an
existing entry for the key. -/
def mapInsert (m : List (String × GeoJSONValue)) (k : String) (v : GeoJSONValue) :
    List (String × GeoJSONValue) :=
  match m with
  | [] => [(k, v)]
  | (k', v') :: rest =>
    if keyLt k k' then (k, v) :: (k', v') :: rest
    else if k = k' then (k, v) :: rest
    else (k', v') :: mapInsert rest k v

/-- `items()` on an arbitrary node: objects iterate their entries keyed by
their keys; arrays iterate their elements keyed by the decimal index
string; null iterates zero times; any other node iterates exactly once with
the empty-string key. -/
def itemsAux : JsonList → Nat → List (String × Json)
  | .nil, _ => []
  | .cons x rest, i => (toString i, x) :: itemsAux rest (i + 1)

/-- Entries of an object node as an ordinary list. -/
def JsonObj.entriesList : JsonObj → List (String × Json)
  | .nil => []
  | .cons k v rest => (k, v) :: JsonObj.entriesList rest

/-- `items()` iteration of a `nlohmann::json` node (see `itemsAux`). -/
def itemsOf : Json → List (String × Json)
  | .null => []
  | .arr xs => itemsAux xs 0
  | .obj kvs => kvs.entriesList
  | j => [("", j)]

/- `GeoJSONReader::readProperty` and the two iteration loops it contains:
dispatch on the node's intrinsic type (string, number, boolean, array,
object, else Null), recursing into array elements and object values;
object values are assigned into a `std::map` via `v[el.key()] = ...`. -/
mutual

def readProperty : Json → GeoJSONValue
  | .str s => .stringVal s
  | .num q => .doubleVal q
  | .bool b => .boolVal b
  | .arr elems => .arrayVal (readPropertyList elems)
  | .obj kvs => .objectVal (readPropertyObj [] kvs)
  | .null => .nullVal
  | .binary _ => .nullVal

def readPropertyList : JsonList → List GeoJSONValue
  | .nil => []
  | .cons v rest => readProperty v :: readPropertyList rest

def readPropertyObj : List (String × GeoJSONValue) → JsonObj →
    List (String × GeoJSONValue)
  | acc, .nil => acc
  | acc, .cons k v rest => readPropertyObj (mapInsert acc k (readProperty v)) rest

end

/-- The `map[prop.key()] = readProperty(prop.value())` loop of
`GeoJSONReader::readProperties`, over an arbitrary `items()` listing. -/
def readPropertyFold : List (String × GeoJSONValue) → List (String × Json) →
    List (String × GeoJSONValue)
  | acc, [] => acc
  | acc, (k, v) :: rest => readPropertyFold (mapInsert acc k (readProperty v)) rest

/-- `GeoJSONReader::readProperties`: iterate `p.items()` assigning each
decoded value into a fresh `std::map`. -/
def readProperties (p : Json) : List (String × GeoJSONValue) :=
  readPropertyFold [] (itemsOf p)

/-- A decoded feature: a geometry and its property mapping. -/
structure GeoJSONFeature where
  geometry : Geometry
  properties : List (String × GeoJSONValue)

/-- `GeoJSONReader::readFeature`: read "geometry" (const access), decode
it, then read "properties" (const access) and decode the mapping. -/
def readFeature (j : Json) : Except Err GeoJSONFeature := do
  let geometryJson ← constIndex j "geometry"
  let geometry ← readGeometry geometryJson
  let properties ← constIndex j "properties"
  return ⟨geometry, readProperties properties⟩

/-- `GeoJSONReader::readFeatureForGeometry`. -/
def readFeatureForGeometry (j : Json) : Except Err Geometry := do
  let geometryJson ← constIndex j "geometry"
  readGeometry geometryJson

/-- Iteration loop of `readFeatureCollectionForGeometry`. -/
def readGeometriesLoop : List Json → Except Err (List Geometry)
  | [] => .ok []
  | x :: rest => do
    let g ← readFeatureForGeometry x
    let gs ← readGeometriesLoop rest
    return g :: gs

/-- `GeoJSONReader::readFeatureCollectionForGeometry`: wrap the geometries
of all features into one GeometryCollection, in document order. -/
def readFeatureCollectionForGeometry (j : Json) : Except Err Geometry := do
  let featuresJson ← constIndex j "features"
  let geometries ← readGeometriesLoop (jsonIter featuresJson)
  return Geometry.collection geometries

/-- Iteration loop of `readFeatureCollection`. -/
def readFeaturesLoop : List Json → Except Err (List GeoJSONFeature)
  | [] => .ok []
  | x :: rest => do
    let f ← readFeature x
    let fs ← readFeaturesLoop rest
    return f :: fs

/-- `GeoJSONReader::readFeatureCollection`. -/
def readFeatureCollection (j : Json) : Except Err (List GeoJSONFeature) := do
  let featuresJson ← constIndex j "features"
  readFeaturesLoop (jsonIter featuresJson)

/-- The try-block body of `GeoJSONReader::read`, after `json::parse` has
produced the tree `j`: `std::string type = j["type"]` (non-const access),
then dispatch on "Feature" / "FeatureCollection" / bare geometry. -/
def readRaw (j : Json) : Except Err Geometry := do
  let type ← mutIndex j "type" >>= getString
  if type = "Feature" then readFeatureForGeometry j
  else if type = "FeatureCollection" then readFeatureCollectionForGeometry j
  else readGeometry j

/-- The `catch (json::exception ex)` handler shared by `read` and
`readFeatures`: any in-flight `json::exception` is replaced by
`ParseException("Error parsing JSON")`; every other outcome passes
through. -/
def catchJsonExc (r : Except Err α) : Except Err α :=
  match r with
  | .error (.jsonExc _) => .error (.parseExc "Error parsing JSON")
  | r => r

/-- `GeoJSONReader::read`.  The external text parser is represented by its
outcome: either a document tree or a `json::parse_error`-style exception. -/
def read (parsed : Except JsonExc Json) : Except Err Geometry :=
  catchJsonExc ((parsed.mapError Err.jsonExc).bind readRaw)

/-- The try-block body of `GeoJSONReader::readFeatures`. -/
def readFeaturesRaw (j : Json) : Except Err (List GeoJSONFeature) := do
  let type ← mutIndex j "type" >>= getString
  if type = "Feature" then do
    let feature ← readFeature j
    return [feature]
  else if type = "FeatureCollection" then readFeatureCollection j
  else do
    let g ← readGeometry j
    return [⟨g, []⟩]

/-- `GeoJSONReader::readFeatures`. -/
def readFeatures (parsed : Except JsonExc Json) : Except Err (List GeoJSONFeature) :=
  catchJsonExc ((parsed.mapError Err.jsonExc).bind readFeaturesRaw)

/-- The spec's `MalformedDocument` error surface: in the code both error
kinds are `ParseException`; the document-level one carries the fixed
message of the top-level catch handler. -/
def isMalformedDocumentError (e : Err) : Prop :=
  e = .parseExc "Error parsing JSON"

/-- The spec's `MalformedGeometry` error surface: a `ParseException`
raised inside a geometry reader, hence carrying a message other than the
fixed document-level one. -/
def isMalformedGeometryError (e : Err) : Prop :=
  (∃ msg, e = Err.parseExc msg) ∧ ¬ isMalformedDocumentError e

/-! Dispatch lemmas for `readGeometry`, proved once from its well-founded
equation and reused by the per-claim theorems. -/

theorem readGeometry_obj (kvs : JsonObj) (t : String)
    (hl : objLookup kvs "type" = some (Json.str t)) (hne : t ≠ "GeometryCollection") :
    readGeometry (Json.obj kvs) =
      if t = "Point" then readPoint (Json.obj kvs)
      else if t = "LineString" then readLineString (Json.obj kvs)
      else if t = "Polygon" then readPolygon (Json.obj kvs)
      else if t = "MultiPoint" then readMultiPoint (Json.obj kvs)
      else if t = "MultiLineString" then readMultiLineString (Json.obj kvs)
      else if t = "MultiPolygon" then readMultiPolygon (Json.obj kvs)
      else Except.error (Err.parseExc "Unknown geometry type!") := by
  rw [readGeometry.eq_def]
  simp only [constIndex, hl, getString, hne, bind, Except.bind, if_false]

theorem readGeometry_missing_type (kvs : JsonObj)
    (hl : objLookup kvs "type" = none) :
    readGeometry (Json.obj kvs) =
      .error (.undefinedBehavior "const operator[] on missing key") := by
  rw [readGeometry.eq_def]
  simp only [constIndex, hl, bind, Except.bind]

/-! Encoders producing the document trees the claims quantify over, and
round-trip lemmas showing the `get<T>` conversions recover the encoded
coordinate data. -/

/-- Lift an ordinary list of nodes into a JSON array payload. -/
def jsonListOf : List Json → JsonList
  | [] => .nil
  | x :: rest => .cons x (jsonListOf rest)

/-- A two-ordinate leaf array. -/
def encPair (p : ℚ × ℚ) : Json := .arr (jsonListOf [.num p.1, .num p.2])

/-- An array of leaf pairs (a LineString / MultiPoint payload, or one ring). -/
def encRing (r : List (ℚ × ℚ)) : Json := .arr (jsonListOf (r.map encPair))

/-- An array of rings (a Polygon / MultiLineString payload). -/
def encRings (rs : List (List (ℚ × ℚ))) : Json := .arr (jsonListOf (rs.map encRing))

/-- An array of ring blocks (a MultiPolygon payload). -/
def encPolys (ps : List (List (List (ℚ × ℚ)))) : Json :=
  .arr (jsonListOf (ps.map encRings))

/-- A bare geometry document with the given "type" and "coordinates". -/
def geomDoc (t : String) (coords : Json) : Json :=
  .obj (.cons "type" (.str t) (.cons "coordinates" coords .nil))

/-- A Point document with the given ordinate list. -/
def pointDoc (qs : List ℚ) : Json :=
  geomDoc "Point" (.arr (jsonListOf (qs.map Json.num)))

/-- A Polygon document with the given ring blocks. -/
def polyDoc (rs : List (List (ℚ × ℚ))) : Json := geomDoc "Polygon" (encRings rs)

theorem getDoubles_enc (qs : List ℚ) :
    getDoubles (jsonListOf (qs.map Json.num)) = .ok qs := by
  induction qs with
  | nil => rfl
  | cons q rest ih => simp [jsonListOf, getDoubles, getDouble, ih, bind, Except.bind, pure, Except.pure]

theorem getPair_enc (p : ℚ × ℚ) : getPair (encPair p) = .ok p := rfl

theorem getPairs_enc (r : List (ℚ × ℚ)) :
    getPairs (jsonListOf (r.map encPair)) = .ok r := by
  induction r with
  | nil => rfl
  | cons p rest ih =>
    simp [jsonListOf, getPairs, getPair_enc, ih, bind, Except.bind, pure, Except.pure]

theorem getRings_enc (rs : List (List (ℚ × ℚ))) :
    getRings (jsonListOf (rs.map encRing)) = .ok rs := by
  induction rs with
  | nil => rfl
  | cons r rest ih =>
    simp [jsonListOf, getRings, getPairList, encRing, getPairs_enc, ih, bind, Except.bind, pure, Except.pure]

theorem getPolys_enc (ps : List (List (List (ℚ × ℚ)))) :
    getPolys (jsonListOf (ps.map encRings)) = .ok ps := by
  induction ps with
  | nil => rfl
  | cons p rest ih =>
    simp [jsonListOf, getPolys, getRingList, encRings, getRings_enc, ih, bind, Except.bind, pure, Except.pure]

theorem readGeometry_polyDoc (rs : List (List (ℚ × ℚ))) :
    readGeometry (polyDoc rs) = readPolygon (polyDoc rs) := by
  rw [polyDoc, geomDoc, readGeometry_obj _ "Polygon" (by rfl) (by decide)]
  rfl

theorem readPolygon_polyDoc (rs : List (List (ℚ × ℚ))) :
    readPolygon (polyDoc rs) =
      match buildRings rs with
      | [] => .ok (Geometry.polygon none [])
      | [outerRing] => .ok (Geometry.polygon (some outerRing) [])
      | outerRing :: innerRings => .ok (Geometry.polygon (some outerRing) innerRings) := by
  have hc : constIndex (polyDoc rs) "coordinates" = .ok (encRings rs) := rfl
  simp only [readPolygon, hc, bind, Except.bind, encRings, getRingList, getRings_enc]
  cases buildRings rs with
  | nil => rfl
  | cons r rest => cases rest <;> rfl

/-! Claim theorems. -/

/-- C1: ring splitting of `readPolygon` follows the shape law.  Decoding a
Polygon document whose "coordinates" hold N ring blocks yields: for N = 0
the explicitly empty Polygon; for N = 1 a Polygon with no holes; and in
general (so in particular for N ≥ 2) exactly one exterior ring built
verbatim from ring block 0 and the remaining N − 1 blocks as interior
rings, kept in original document order with no orientation correction. -/
theorem c1_polygon_ring_split :
    (read (.ok (polyDoc [])) = .ok (Geometry.polygon none [])) ∧
    (∀ r : List (ℚ × ℚ),
      read (.ok (polyDoc [r])) = .ok (Geometry.polygon (some (buildCoordinates r)) [])) ∧
    (∀ (r : List (ℚ × ℚ)) (rest : List (List (ℚ × ℚ))),
      read (.ok (polyDoc (r :: rest))) =
        .ok (Geometry.polygon (some (buildCoordinates r)) (buildRings rest))) := by
  refine ⟨?_, ?_, ?_⟩
  · show catchJsonExc (readGeometry (polyDoc [])) = _
    rw [readGeometry_polyDoc, readPolygon_polyDoc]
    rfl
  · intro r
    show catchJsonExc (readGeometry (polyDoc [r])) = _
    rw [readGeometry_polyDoc, readPolygon_polyDoc]
    rfl
  · intro r rest
    show catchJsonExc (readGeometry (polyDoc (r :: rest))) = _
    rw [readGeometry_polyDoc, readPolygon_polyDoc]
    cases hb : buildRings rest with
    | nil =>
      have : rest = [] := by
        cases rest with
        | nil => rfl
        | cons a b => simp [buildRings] at hb
      subst this
      rfl
    | cons b bs =>
      simp only [buildRings, List.map_cons] at *
      rw [hb]
      rfl


theorem readGeometry_pointDoc (qs : List ℚ) :
    readGeometry (pointDoc qs) = readPoint (pointDoc qs) := by
  rw [pointDoc, geomDoc, readGeometry_obj _ "Point" (by rfl) (by decide)]
  rfl

theorem readPoint_pointDoc (qs : List ℚ) :
    readPoint (pointDoc qs) =
      match qs with
      | [] => .ok (Geometry.point none)
      | [_] => .error (.parseExc "Expected two coordinates found one")
      | a :: b :: _ => .ok (Geometry.point (some ⟨a, b⟩)) := by
  have hc : constIndex (pointDoc qs) "coordinates" =
      .ok (.arr (jsonListOf (qs.map Json.num))) := rfl
  simp only [readPoint, hc, bind, Except.bind, getDoubleArray, getDoubles_enc]
  cases qs with
  | nil => rfl
  | cons a rest =>
    cases rest with
    | nil => rfl
    | cons b more =>
      simp only [List.length_cons]
      rw [if_neg (by omega), if_neg (by omega)]
      rfl

/-- C2: decoding a Point document whose "coordinates" array holds zero
numeric ordinates yields the explicitly empty Point without error; exactly
one ordinate fails with the geometry-level ParseException "Expected two
coordinates found one" (the spec's MalformedGeometry error, distinct from
the document-level surface); two or more ordinates succeed, taking only the
first two values as (x, y). -/
theorem c2_point_ordinate_policy :
    (∀ qs : List ℚ,
      read (.ok (pointDoc qs)) =
        match qs with
        | [] => .ok (Geometry.point none)
        | [_] => .error (.parseExc "Expected two coordinates found one")
        | a :: b :: _ => .ok (Geometry.point (some ⟨a, b⟩))) ∧
    isMalformedGeometryError (.parseExc "Expected two coordinates found one") := by
  constructor
  · intro qs
    have h : read (.ok (pointDoc qs)) = catchJsonExc (readPoint (pointDoc qs)) := by
      show catchJsonExc (readGeometry (pointDoc qs)) = _
      rw [readGeometry_pointDoc]
    rw [h, readPoint_pointDoc]
    cases qs with
    | nil => rfl
    | cons a rest =>
      cases rest with
      | nil => rfl
      | cons b more => rfl
  · refine ⟨⟨"Expected two coordinates found one", rfl⟩, ?_⟩
    intro h
    simp [isMalformedDocumentError] at h


/-! Association-list machinery for the property mapping (the image of the
`std::map<std::string, GeoJSONValue>` the reader fills). -/

/-- First-match lookup in an association list. -/
def assocLookup {α : Type} : List (String × α) → String → Option α
  | [], _ => none
  | (k', v) :: rest, k => if k = k' then some v else assocLookup rest k

theorem charListLt_iff : ∀ as bs : List Char, charListLt as bs = true ↔ as < bs
  | [], [] => by
    simp only [charListLt, Bool.false_eq_true, false_iff]
    intro h
    cases h
  | [], b :: bs => by
    simp only [charListLt, true_iff]
    exact List.Lex.nil
  | a :: as, [] => by
    simp only [charListLt, Bool.false_eq_true, false_iff]
    intro h
    cases h
  | a :: as, b :: bs => by
    by_cases h1 : a < b
    · simp only [charListLt, if_pos h1, true_iff]
      exact List.Lex.rel h1
    · by_cases h2 : b < a
      · simp only [charListLt, if_neg h1, if_pos h2, Bool.false_eq_true, false_iff]
        intro h
        cases h with
        | cons h => exact absurd h2 (lt_irrefl a)
        | rel h => exact h1 h
      · have heq : a = b := le_antisymm (not_lt.mp h2) (not_lt.mp h1)
        subst heq
        simp only [charListLt, if_neg h1, if_neg h2]
        rw [charListLt_iff as bs]
        constructor
        · intro h
          exact List.Lex.cons h
        · intro h
          cases h with
          | cons h => exact h
          | rel h => exact absurd h h1

theorem keyLt_iff {a b : String} : keyLt a b = true ↔ a < b := by
  rw [String.lt_iff_toList_lt]
  exact charListLt_iff a.data b.data

theorem assocLookup_mapInsert_self (m : List (String × GeoJSONValue)) (k : String)
    (v : GeoJSONValue) : assocLookup (mapInsert m k v) k = some v := by
  induction m with
  | nil => simp [mapInsert, assocLookup]
  | cons p rest ih =>
    obtain ⟨k', v'⟩ := p
    rcases lt_trichotomy k k' with h | h | h
    · simp [mapInsert, keyLt_iff, h, assocLookup]
    · simp [mapInsert, keyLt_iff, h, assocLookup]
    · have hne : k ≠ k' := ne_of_gt h
      have hnlt : ¬ k < k' := not_lt_of_gt h
      simp [mapInsert, keyLt_iff, hnlt, hne, assocLookup, ih]

theorem assocLookup_mapInsert_other (m : List (String × GeoJSONValue)) (k k₂ : String)
    (v : GeoJSONValue) (hne : k₂ ≠ k) :
    assocLookup (mapInsert m k v) k₂ = assocLookup m k₂ := by
  induction m with
  | nil => simp [mapInsert, assocLookup, hne]
  | cons p rest ih =>
    obtain ⟨k', v'⟩ := p
    rcases lt_trichotomy k k' with h | h | h
    · simp [mapInsert, keyLt_iff, h, assocLookup, hne]
    · subst h
      simp [mapInsert, keyLt_iff, lt_irrefl, assocLookup, hne]
    · have hne' : ¬ k = k' := ne_of_gt h
      have hnlt : ¬ keyLt k k' = true := by simp [keyLt_iff, not_lt_of_gt h]
      simp only [mapInsert, if_neg hnlt, if_neg hne']
      by_cases hk2 : k₂ = k'
      · simp [assocLookup, hk2]
      · simp [assocLookup, hk2, ih]

theorem mem_mapInsert {m : List (String × GeoJSONValue)} {k : String}
    {v : GeoJSONValue} {a : String × GeoJSONValue} (h : a ∈ mapInsert m k v) :
    a = (k, v) ∨ a ∈ m := by
  induction m with
  | nil => left; simpa [mapInsert] using h
  | cons p rest ih =>
    obtain ⟨k', v'⟩ := p
    by_cases h1 : k < k'
    · rw [mapInsert, if_pos (keyLt_iff.mpr h1)] at h
      rcases List.mem_cons.mp h with h' | h'
      · left; exact h'
      · right; exact h'
    · have h1' : ¬ keyLt k k' = true := by simp [keyLt_iff, h1]
      by_cases h2 : k = k'
      · rw [mapInsert, if_neg h1', if_pos h2] at h
        rcases List.mem_cons.mp h with h' | h'
        · left; exact h'
        · right; exact List.mem_cons_of_mem _ h'
      · rw [mapInsert, if_neg h1', if_neg h2] at h
        rcases List.mem_cons.mp h with h' | h'
        · right
          rw [h']
          exact List.mem_cons_self _ _
        · rcases ih h' with h'' | h''
          · left; exact h''
          · right; exact List.mem_cons_of_mem _ h''

theorem mapInsert_pairwise {m : List (String × GeoJSONValue)} (k : String)
    (v : GeoJSONValue) (h : m.Pairwise (fun a b => a.1 < b.1)) :
    (mapInsert m k v).Pairwise (fun a b => a.1 < b.1) := by
  induction m with
  | nil => simp [mapInsert]
  | cons p rest ih =>
    obtain ⟨k', v'⟩ := p
    rw [List.pairwise_cons] at h
    obtain ⟨h1, h2⟩ := h
    rcases lt_trichotomy k k' with hlt | heq | hgt
    · rw [mapInsert, if_pos (keyLt_iff.mpr hlt)]
      refine List.Pairwise.cons ?_ (List.Pairwise.cons h1 h2)
      intro b hb
      rcases List.mem_cons.mp hb with hb | hb
      · subst hb; exact hlt
      · exact lt_trans hlt (h1 b hb)
    · rw [mapInsert, if_neg (by simp [keyLt_iff, heq]), if_pos heq]
      refine List.Pairwise.cons ?_ h2
      intro b hb
      exact heq ▸ h1 b hb
    · rw [mapInsert, if_neg (by simp [keyLt_iff, not_lt_of_gt hgt]), if_neg (ne_of_gt hgt)]
      refine List.Pairwise.cons ?_ (ih h2)
      intro b hb
      rcases mem_mapInsert hb with hb | hb
      · subst hb; exact hgt
      · exact h1 b hb

theorem assocLookup_append {α : Type} (l₁ l₂ : List (String × α)) (k : String) :
    assocLookup (l₁ ++ l₂) k = (assocLookup l₁ k).or (assocLookup l₂ k) := by
  induction l₁ with
  | nil => simp [assocLookup]
  | cons p rest ih =>
    obtain ⟨k', v⟩ := p
    by_cases h : k = k'
    · simp [assocLookup, h]
    · simp [assocLookup, h, ih]

theorem readPropertyFold_lookup (kvs : List (String × Json)) :
    ∀ (acc : List (String × GeoJSONValue)) (k : String),
      assocLookup (readPropertyFold acc kvs) k =
        ((assocLookup kvs.reverse k).map readProperty).or (assocLookup acc k) := by
  induction kvs with
  | nil => intro acc k; simp [readPropertyFold, assocLookup]
  | cons p rest ih =>
    intro acc k
    obtain ⟨k₀, v₀⟩ := p
    rw [readPropertyFold, ih]
    rw [List.reverse_cons, assocLookup_append]
    cases hr : assocLookup rest.reverse k with
    | some w => simp [Option.or]
    | none =>
      simp only [Option.or]
      by_cases hk : k = k₀
      · subst hk
        simp [assocLookup, assocLookup_mapInsert_self]
      · simp [assocLookup, hk, assocLookup_mapInsert_other _ _ _ _ hk]

theorem readPropertyFold_pairwise (kvs : List (String × Json)) :
    ∀ acc : List (String × GeoJSONValue),
      acc.Pairwise (fun a b => a.1 < b.1) →
      (readPropertyFold acc kvs).Pairwise (fun a b => a.1 < b.1) := by
  induction kvs with
  | nil => intro acc h; exact h
  | cons p rest ih =>
    intro acc h
    obtain ⟨k₀, v₀⟩ := p
    exact ih _ (mapInsert_pairwise _ _ h)

theorem readPropertyObj_eq_fold :
    ∀ (kvs : JsonObj) (acc : List (String × GeoJSONValue)),
      readPropertyObj acc kvs = readPropertyFold acc kvs.entriesList
  | .nil, acc => rfl
  | .cons k v rest, acc => by
    rw [readPropertyObj, JsonObj.entriesList, readPropertyFold]
    exact readPropertyObj_eq_fold rest _


/-- C3 counterexample: the claim says the decoded properties Mapping
preserves the source document's insertion order of keys.  It does not: the
reader stores entries in a `std::map`, which orders keys lexicographically.
A source object listing "b" before "a" decodes to a mapping whose keys
iterate as ["a", "b"], not the source order ["b", "a"]. -/
theorem c3_insertion_order_counterexample :
    (readProperties
        (Json.obj (.cons "b" (Json.num 1) (.cons "a" (Json.num 2) .nil)))).map Prod.fst
      = ["a", "b"] ∧ (["a", "b"] : List String) ≠ ["b", "a"] := by
  constructor
  · decide
  · decide

/-- C3 amended: at every nesting level the decoded properties Mapping is a
`std::map` image — its entries are ordered by lexicographic key order (not
source insertion order), and for duplicate source keys the last occurrence
wins: looking up any key returns the decoded value of its last occurrence
in the source listing. -/
theorem c3_sorted_keys_last_occurrence_wins :
    (∀ kvs : JsonObj,
      readProperties (Json.obj kvs) = readPropertyFold [] kvs.entriesList) ∧
    (∀ kvs : JsonObj,
      readProperty (Json.obj kvs) = .objectVal (readPropertyFold [] kvs.entriesList)) ∧
    (∀ entries : List (String × Json),
      (readPropertyFold [] entries).Pairwise (fun a b => a.1 < b.1)) ∧
    (∀ (entries : List (String × Json)) (k : String),
      assocLookup (readPropertyFold [] entries) k =
        (assocLookup entries.reverse k).map readProperty) := by
  refine ⟨fun kvs => rfl, ?_, ?_, ?_⟩
  · intro kvs
    rw [readProperty, readPropertyObj_eq_fold]
  · intro entries
    exact readPropertyFold_pairwise entries [] (by simp)
  · intro entries k
    rw [readPropertyFold_lookup]
    simp [assocLookup]


/-- Helper: the top-level catch wrapper applied to a successfully parsed
tree. -/
theorem read_ok (j : Json) : read (.ok j) = catchJsonExc (readRaw j) := rfl

/-- Helper: `readFeatures` on a successfully parsed tree. -/
theorem readFeatures_ok (j : Json) :
    readFeatures (.ok j) = catchJsonExc (readFeaturesRaw j) := rfl

/-- C4 counterexample: the claim says a geometry node with a missing "type"
key fails with the MalformedGeometry error "Unknown geometry type!".  It
does not: reading a document whose outer object has no "type" key produces
the document-level ParseException "Error parsing JSON" (the non-const
`j["type"]` inserts null, whose string conversion throws a
`json::type_error` that the top-level catch translates), which is a
different error. -/
theorem c4_missing_type_counterexample :
    read (.ok (Json.obj (.cons "coordinates" (.arr .nil) .nil))) =
        .error (.parseExc "Error parsing JSON") ∧
      Err.parseExc "Error parsing JSON" ≠ Err.parseExc "Unknown geometry type!" := by
  constructor
  · rfl
  · decide

/-- C4 amended: `readGeometry` dispatches by exact, case-sensitive match of
the "type" string against the seven kinds; any other *string* value fails
with ParseException "Unknown geometry type!".  A missing "type" key does
not reach that error: in a nested geometry node it is an out-of-bounds
const `operator[]` access (undefined behavior), and at the top level `read`
fails with the document-level "Error parsing JSON". -/
theorem c4_dispatch_table :
    (∀ (t : String) (rest : JsonObj),
      t ∉ (["Point", "LineString", "Polygon", "MultiPoint", "MultiLineString",
            "MultiPolygon", "GeometryCollection"] : List String) →
      readGeometry (Json.obj (.cons "type" (.str t) rest)) =
        .error (.parseExc "Unknown geometry type!")) ∧
    (∀ rest : JsonObj,
      readGeometry (Json.obj (.cons "type" (.str "Point") rest)) =
        readPoint (Json.obj (.cons "type" (.str "Point") rest))) ∧
    (∀ rest : JsonObj,
      readGeometry (Json.obj (.cons "type" (.str "LineString") rest)) =
        readLineString (Json.obj (.cons "type" (.str "LineString") rest))) ∧
    (∀ rest : JsonObj,
      readGeometry (Json.obj (.cons "type" (.str "Polygon") rest)) =
        readPolygon (Json.obj (.cons "type" (.str "Polygon") rest))) ∧
    (∀ rest : JsonObj,
      readGeometry (Json.obj (.cons "type" (.str "MultiPoint") rest)) =
        readMultiPoint (Json.obj (.cons "type" (.str "MultiPoint") rest))) ∧
    (∀ rest : JsonObj,
      readGeometry (Json.obj (.cons "type" (.str "MultiLineString") rest)) =
        readMultiLineString (Json.obj (.cons "type" (.str "MultiLineString") rest))) ∧
    (∀ rest : JsonObj,
      readGeometry (Json.obj (.cons "type" (.str "MultiPolygon") rest)) =
        readMultiPolygon (Json.obj (.cons "type" (.str "MultiPolygon") rest))) ∧
    (∀ rest : JsonObj,
      readGeometry
          (Json.obj (.cons "type" (.str "GeometryCollection")
            (.cons "geometries" (.arr .nil) rest))) =
        .ok (.collection [])) ∧
    (∀ kvs : JsonObj, objLookup kvs "type" = none →
      readGeometry (Json.obj kvs) =
        .error (.undefinedBehavior "const operator[] on missing key")) ∧
    (∀ kvs : JsonObj, objLookup kvs "type" = none →
      read (.ok (Json.obj kvs)) = .error (.parseExc "Error parsing JSON")) := by
  refine ⟨?_, ?_, ?_, ?_, ?_, ?_, ?_, ?_, ?_, ?_⟩
  · intro t rest h7
    obtain ⟨h1, h2, h3, h4, h5, h6, h7⟩ : t ≠ "Point" ∧ t ≠ "LineString" ∧
        t ≠ "Polygon" ∧ t ≠ "MultiPoint" ∧ t ≠ "MultiLineString" ∧
        t ≠ "MultiPolygon" ∧ t ≠ "GeometryCollection" := by
      simpa using h7
    rw [readGeometry_obj _ t (by simp [objLookup]) h7, if_neg h1, if_neg h2,
      if_neg h3, if_neg h4, if_neg h5, if_neg h6]
  · intro rest
    rw [readGeometry_obj _ "Point" (by simp [objLookup]) (by decide)]
    rfl
  · intro rest
    rw [readGeometry_obj _ "LineString" (by simp [objLookup]) (by decide)]
    rfl
  · intro rest
    rw [readGeometry_obj _ "Polygon" (by simp [objLookup]) (by decide)]
    rfl
  · intro rest
    rw [readGeometry_obj _ "MultiPoint" (by simp [objLookup]) (by decide)]
    rfl
  · intro rest
    rw [readGeometry_obj _ "MultiLineString" (by simp [objLookup]) (by decide)]
    rfl
  · intro rest
    rw [readGeometry_obj _ "MultiPolygon" (by simp [objLookup]) (by decide)]
    rfl
  · intro rest
    rw [readGeometry.eq_def]
    rfl
  · intro kvs h
    exact readGeometry_missing_type kvs h
  · intro kvs h
    rw [read_ok]
    have hr : readRaw (Json.obj kvs) = .error (.jsonExc (.typeError 302)) := by
      simp [readRaw, mutIndex, h, getString, bind, Except.bind]
    rw [hr]
    rfl

/-- C4 witness: the amended dispatch law applied at concrete inputs — the
unknown type string "Circle", a nested geometry object with no "type" key,
and a top-level document with no "type" key. -/
theorem c4_dispatch_table_witness :
    readGeometry (Json.obj (.cons "type" (.str "Circle") .nil)) =
        .error (.parseExc "Unknown geometry type!") ∧
      readGeometry (Json.obj .nil) =
        .error (.undefinedBehavior "const operator[] on missing key") ∧
      read (.ok (Json.obj .nil)) = .error (.parseExc "Error parsing JSON") :=
  ⟨c4_dispatch_table.1 "Circle" .nil (by decide),
   c4_dispatch_table.2.2.2.2.2.2.2.2.1 .nil rfl,
   c4_dispatch_table.2.2.2.2.2.2.2.2.2 .nil rfl⟩


/-- Payload lookup under a `geomDoc`. -/
theorem constIndex_geomDoc (t : String) (c : Json) :
    constIndex (geomDoc t c) "coordinates" = .ok c := rfl

theorem readGeometry_doc_point (c : Json) :
    readGeometry (geomDoc "Point" c) = readPoint (geomDoc "Point" c) := by
  rw [geomDoc, readGeometry_obj _ "Point" (by simp [objLookup]) (by decide)]
  rfl

theorem readGeometry_doc_lineString (c : Json) :
    readGeometry (geomDoc "LineString" c) = readLineString (geomDoc "LineString" c) := by
  rw [geomDoc, readGeometry_obj _ "LineString" (by simp [objLookup]) (by decide)]
  rfl

theorem readGeometry_doc_polygon (c : Json) :
    readGeometry (geomDoc "Polygon" c) = readPolygon (geomDoc "Polygon" c) := by
  rw [geomDoc, readGeometry_obj _ "Polygon" (by simp [objLookup]) (by decide)]
  rfl

theorem readGeometry_doc_multiPoint (c : Json) :
    readGeometry (geomDoc "MultiPoint" c) = readMultiPoint (geomDoc "MultiPoint" c) := by
  rw [geomDoc, readGeometry_obj _ "MultiPoint" (by simp [objLookup]) (by decide)]
  rfl

theorem readGeometry_doc_multiLineString (c : Json) :
    readGeometry (geomDoc "MultiLineString" c) =
      readMultiLineString (geomDoc "MultiLineString" c) := by
  rw [geomDoc, readGeometry_obj _ "MultiLineString" (by simp [objLookup]) (by decide)]
  rfl

theorem readGeometry_doc_multiPolygon (c : Json) :
    readGeometry (geomDoc "MultiPolygon" c) =
      readMultiPolygon (geomDoc "MultiPolygon" c) := by
  rw [geomDoc, readGeometry_obj _ "MultiPolygon" (by simp [objLookup]) (by decide)]
  rfl

/-- A leaf array carrying two ordinates plus arbitrary extra ordinates. -/
def encTriple (t : ℚ × ℚ × List ℚ) : Json :=
  .arr (.cons (.num t.1) (.cons (.num t.2.1) (jsonListOf (t.2.2.map Json.num))))

theorem getPair_encTriple (t : ℚ × ℚ × List ℚ) :
    getPair (encTriple t) = .ok (t.1, t.2.1) := rfl

theorem getPairs_encTriple (ts : List (ℚ × ℚ × List ℚ)) :
    getPairs (jsonListOf (ts.map encTriple)) =
      .ok (ts.map fun t => (t.1, t.2.1)) := by
  induction ts with
  | nil => rfl
  | cons t rest ih =>
    simp [jsonListOf, getPairs, getPair_encTriple, ih, bind, Except.bind, pure, Except.pure]

theorem getPairs_short (q : ℚ) (post : List Json) :
    ∀ pre : List (ℚ × ℚ),
      getPairs (jsonListOf (pre.map encPair ++ Json.arr (.cons (.num q) .nil) :: post)) =
        .error (.jsonExc (.outOfRange 401))
  | [] => by
    have h : getPair (Json.arr (.cons (.num q) .nil)) =
        .error (.jsonExc (.outOfRange 401)) := rfl
    simp [jsonListOf, getPairs, h, bind, Except.bind]
  | p :: pre => by
    simp [List.cons_append, List.map_cons, jsonListOf, getPairs, getPair_enc,
      getPairs_short q post pre, bind, Except.bind]

/-- C5 counterexample: the claim says a coordinate pair with fewer than two
numbers fails with a MalformedGeometry error (outside the zero-ordinate
Point case).  For a LineString whose single pair holds one number, the
failure is instead the `json::out_of_range` of `at(1)`, which the top-level
catch turns into the document-level ParseException "Error parsing JSON" —
not a MalformedGeometry error. -/
theorem c5_short_pair_counterexample :
    read (.ok (geomDoc "LineString"
        (.arr (.cons (.arr (.cons (.num 1) .nil)) .nil)))) =
        .error (.parseExc "Error parsing JSON") ∧
      ¬ isMalformedGeometryError (.parseExc "Error parsing JSON") := by
  constructor
  · rw [read_ok]
    show catchJsonExc (readGeometry _) = _
    rw [readGeometry_doc_lineString]
    rfl
  · intro hmg
    exact hmg.2 rfl

/-- C5 amended: each leaf pair takes its first two numeric values as
(x, y), silently ignoring extra ordinates; but a pair with fewer than two
numbers inside a coordinate list fails with the uniform document-level
error "Error parsing JSON" (a `json::out_of_range` translated at the top
level), not a geometry-specific error; only the single-Point one-ordinate
case yields the geometry-level ParseException "Expected two coordinates
found one". -/
theorem c5_leaf_pair_policy :
    (∀ ts : List (ℚ × ℚ × List ℚ),
      read (.ok (geomDoc "LineString" (.arr (jsonListOf (ts.map encTriple))))) =
        .ok (.lineString (ts.map fun t => ⟨t.1, t.2.1⟩))) ∧
    (∀ (q : ℚ) (pre post : List (ℚ × ℚ)),
      read (.ok (geomDoc "LineString"
          (.arr (jsonListOf (pre.map encPair ++
            Json.arr (.cons (.num q) .nil) :: post.map encPair))))) =
        .error (.parseExc "Error parsing JSON")) ∧
    (∀ q : ℚ,
      read (.ok (pointDoc [q])) =
        .error (.parseExc "Expected two coordinates found one")) := by
  refine ⟨?_, ?_, ?_⟩
  · intro ts
    rw [read_ok]
    show catchJsonExc (readGeometry _) = _
    rw [readGeometry_doc_lineString]
    simp [readLineString, constIndex_geomDoc, getPairList, getPairs_encTriple,
      bind, Except.bind, catchJsonExc, buildCoordinates, pure, Except.pure]
  · intro q pre post
    rw [read_ok]
    show catchJsonExc (readGeometry _) = _
    rw [readGeometry_doc_lineString]
    simp [readLineString, constIndex_geomDoc, getPairList, getPairs_short,
      bind, Except.bind, catchJsonExc]
  · intro q
    rw [read_ok]
    show catchJsonExc (readGeometry _) = _
    rw [readGeometry_pointDoc, readPoint_pointDoc]
    rfl


/-- C6 counterexample: the claim says a non-object "properties" entry
(null, scalar, or array) or an absent one decodes to an empty Mapping.  A
scalar "properties" does not: `items()` on a primitive node iterates once
with the empty-string key, so the feature decodes with the one-entry
mapping [("", 5)] rather than an empty one. -/
theorem c6_scalar_properties_counterexample :
    (readFeature (Json.obj (.cons "geometry" (pointDoc [1, 2])
        (.cons "properties" (Json.num 5) .nil)))).map (fun f => f.properties) =
        .ok [("", GeoJSONValue.doubleVal 5)] ∧
      ([("", GeoJSONValue.doubleVal 5)] : List (String × GeoJSONValue)) ≠ [] := by
  constructor
  · have hg : readGeometry (pointDoc [1, 2]) = .ok (.point (some ⟨1, 2⟩)) := by
      rw [readGeometry_pointDoc, readPoint_pointDoc]
    simp [readFeature, constIndex, objLookup, hg, bind, Except.bind, Except.map,
      pure, Except.pure]
    rfl
  · simp

/-- C6 amended: with "geometry" present, the feature's geometry is decoded
first and normally in every case, but the "properties" fallback differs
from the claim: a null "properties" (and only that non-object case) yields
an empty mapping; a scalar yields the one-entry mapping keyed by the empty
string; an array yields entries keyed by decimal index strings; and an
absent "properties" is an out-of-bounds const `operator[]` access
(undefined behavior), not an empty mapping. -/
theorem c6_properties_fallback :
    (∀ g : Json,
      readFeature (Json.obj (.cons "geometry" g (.cons "properties" Json.null .nil))) =
        (readGeometry g).map (fun geom => ⟨geom, []⟩)) ∧
    (∀ (g : Json) (q : ℚ),
      readFeature (Json.obj (.cons "geometry" g (.cons "properties" (Json.num q) .nil))) =
        (readGeometry g).map
          (fun geom => ⟨geom, [("", .doubleVal q)]⟩)) ∧
    (∀ (g a b : Json),
      readFeature (Json.obj (.cons "geometry" g
          (.cons "properties" (.arr (.cons a (.cons b .nil))) .nil))) =
        (readGeometry g).map
          (fun geom => ⟨geom, [("0", readProperty a), ("1", readProperty b)]⟩)) ∧
    (∀ g : Json,
      readFeature (Json.obj (.cons "geometry" g .nil)) =
        (readGeometry g).bind
          (fun _ => .error (.undefinedBehavior "const operator[] on missing key"))) := by
  refine ⟨?_, ?_, ?_, ?_⟩
  · intro g
    cases hr : readGeometry g with
    | error e =>
      simp [readFeature, constIndex, objLookup, hr, bind, Except.bind, Except.map]
    | ok geom =>
      simp [readFeature, constIndex, objLookup, hr, bind, Except.bind, Except.map,
        pure, Except.pure]
      rfl
  · intro g q
    cases hr : readGeometry g with
    | error e =>
      simp [readFeature, constIndex, objLookup, hr, bind, Except.bind, Except.map]
    | ok geom =>
      simp [readFeature, constIndex, objLookup, hr, bind, Except.bind, Except.map,
        pure, Except.pure]
      rfl
  · intro g a b
    cases hr : readGeometry g with
    | error e =>
      simp [readFeature, constIndex, objLookup, hr, bind, Except.bind, Except.map]
    | ok geom =>
      simp [readFeature, constIndex, objLookup, hr, bind, Except.bind, Except.map,
        pure, Except.pure]
      rfl
  · intro g
    cases hr : readGeometry g with
    | error e =>
      simp [readFeature, constIndex, objLookup, hr, bind, Except.bind]
    | ok geom =>
      simp [readFeature, constIndex, objLookup, hr, bind, Except.bind]


/-- C7: at the top-level entry points every tree-parse failure —
whatever exception detail `e` the parser produced — is re-raised as the
single fixed document-level ParseException "Error parsing JSON",
discarding the parser detail; an outer object with no "type" key fails
with the same document-level error (its inserted-null "type" fails string
conversion inside the same try block). -/
theorem c7_uniform_document_error :
    (∀ e : JsonExc, read (.error e) = .error (.parseExc "Error parsing JSON")) ∧
    (∀ e : JsonExc, readFeatures (.error e) = .error (.parseExc "Error parsing JSON")) ∧
    (∀ kvs : JsonObj, objLookup kvs "type" = none →
      read (.ok (Json.obj kvs)) = .error (.parseExc "Error parsing JSON")) ∧
    (∀ kvs : JsonObj, objLookup kvs "type" = none →
      readFeatures (.ok (Json.obj kvs)) = .error (.parseExc "Error parsing JSON")) := by
  refine ⟨fun e => rfl, fun e => rfl, ?_, ?_⟩
  · intro kvs h
    rw [read_ok]
    have hr : readRaw (Json.obj kvs) = .error (.jsonExc (.typeError 302)) := by
      simp [readRaw, mutIndex, h, getString, bind, Except.bind]
    rw [hr]
    rfl
  · intro kvs h
    rw [readFeatures_ok]
    have hr : readFeaturesRaw (Json.obj kvs) = .error (.jsonExc (.typeError 302)) := by
      simp [readFeaturesRaw, mutIndex, h, getString, bind, Except.bind]
    rw [hr]
    rfl

/-- C7 witness: the uniform error law applied at a concrete syntax-error
outcome (`json::parse_error` 101) and at a concrete typeless document. -/
theorem c7_uniform_document_error_witness :
    read (.error (.parseErr 101)) = .error (.parseExc "Error parsing JSON") ∧
      readFeatures (.error (.parseErr 101)) = .error (.parseExc "Error parsing JSON") ∧
      read (.ok (Json.obj .nil)) = .error (.parseExc "Error parsing JSON") ∧
      readFeatures (.ok (Json.obj .nil)) = .error (.parseExc "Error parsing JSON") :=
  ⟨c7_uniform_document_error.1 (.parseErr 101),
   c7_uniform_document_error.2.1 (.parseErr 101),
   c7_uniform_document_error.2.2.1 .nil rfl,
   c7_uniform_document_error.2.2.2 .nil rfl⟩

/-- C8: the value decoder is total — `readProperty : Json → GeoJSONValue`
returns a tagged value on every well-formed tree node by its very type —
and dispatches on the node's intrinsic type: string, number, boolean,
array, object, with null and any unsupported node kind (the library's
binary nodes) decoding to Null; numbers always decode to the double-tagged
value, and the decoder recurses structurally into array elements and
object values (the latter through the `std::map` assignment loop). -/
theorem c8_value_decoder_total_dispatch :
    (∀ s, readProperty (.str s) = .stringVal s) ∧
    (∀ q, readProperty (.num q) = .doubleVal q) ∧
    (∀ b, readProperty (.bool b) = .boolVal b) ∧
    (∀ elems, readProperty (.arr elems) = .arrayVal (readPropertyList elems)) ∧
    (∀ kvs, readProperty (.obj kvs) = .objectVal (readPropertyObj [] kvs)) ∧
    (readProperty .null = .nullVal) ∧
    (∀ bytes, readProperty (.binary bytes) = .nullVal) ∧
    (∀ v rest, readPropertyList (.cons v rest) =
      readProperty v :: readPropertyList rest) ∧
    (∀ acc k v rest, readPropertyObj acc (.cons k v rest) =
      readPropertyObj (mapInsert acc k (readProperty v)) rest) :=
  ⟨fun _ => rfl, fun _ => rfl, fun _ => rfl, fun _ => rfl, fun _ => rfl,
   rfl, fun _ => rfl, fun _ _ => rfl, fun _ _ _ _ => rfl⟩

/-- C9: evaluating the decoder at the failing input
`{"type":"MultiPolygon","coordinates":[[]]}` — a MultiPolygon whose single
element has zero rings — reaches the out-of-bounds `rings[0]` read of
`readMultiPolygon`'s else branch (readPolygon checks `rings.size() == 0`
but readMultiPolygon does not), so the decode neither returns a geometry
nor raises a typed error: it is undefined behavior, contradicting the
spec's no-crash requirement. -/
theorem c9_multipolygon_empty_rings_oob :
    read (.ok (geomDoc "MultiPolygon" (.arr (.cons (.arr .nil) .nil)))) =
      .error (.undefinedBehavior "rings[0] on empty vector") := by
  rw [read_ok]
  show catchJsonExc (readGeometry _) = _
  rw [readGeometry_doc_multiPolygon]
  rfl


theorem readPoint_conv_err {c : Json} {e : JsonExc}
    (h : getDoubleArray c = .error (.jsonExc e)) :
    readPoint (geomDoc "Point" c) = .error (.jsonExc e) := by
  simp [readPoint, constIndex_geomDoc, h, bind, Except.bind]

theorem readLineString_conv_err {c : Json} {e : JsonExc}
    (h : getPairList c = .error (.jsonExc e)) :
    readLineString (geomDoc "LineString" c) = .error (.jsonExc e) := by
  simp [readLineString, constIndex_geomDoc, h, bind, Except.bind]

theorem readPolygon_conv_err {c : Json} {e : JsonExc}
    (h : getRingList c = .error (.jsonExc e)) :
    readPolygon (geomDoc "Polygon" c) = .error (.jsonExc e) := by
  simp [readPolygon, constIndex_geomDoc, h, bind, Except.bind]

theorem readMultiPoint_conv_err {c : Json} {e : JsonExc}
    (h : getPairList c = .error (.jsonExc e)) :
    readMultiPoint (geomDoc "MultiPoint" c) = .error (.jsonExc e) := by
  simp [readMultiPoint, constIndex_geomDoc, h, bind, Except.bind]

theorem readMultiLineString_conv_err {c : Json} {e : JsonExc}
    (h : getRingList c = .error (.jsonExc e)) :
    readMultiLineString (geomDoc "MultiLineString" c) = .error (.jsonExc e) := by
  simp [readMultiLineString, constIndex_geomDoc, h, bind, Except.bind]

theorem readMultiPolygon_conv_err {c : Json} {e : JsonExc}
    (h : getPolyList c = .error (.jsonExc e)) :
    readMultiPolygon (geomDoc "MultiPolygon" c) = .error (.jsonExc e) := by
  simp [readMultiPolygon, constIndex_geomDoc, h, bind, Except.bind]

/-- C10: for every coordinate-bearing kind, when the "coordinates" field is
present but not shaped as the kind requires — so that the `get<T>`
conversion throws any `json::exception` (non-array value, wrong nesting
depth, non-numeric leaf) — both `read` and `readFeatures` surface the
single uniform document-level ParseException "Error parsing JSON", not a
geometry-specific error. -/
theorem c10_misshapen_coordinates_uniform_error :
    (∀ (c : Json) (e : JsonExc), getDoubleArray c = .error (.jsonExc e) →
      read (.ok (geomDoc "Point" c)) = .error (.parseExc "Error parsing JSON")) ∧
    (∀ (c : Json) (e : JsonExc), getPairList c = .error (.jsonExc e) →
      read (.ok (geomDoc "LineString" c)) = .error (.parseExc "Error parsing JSON")) ∧
    (∀ (c : Json) (e : JsonExc), getRingList c = .error (.jsonExc e) →
      read (.ok (geomDoc "Polygon" c)) = .error (.parseExc "Error parsing JSON")) ∧
    (∀ (c : Json) (e : JsonExc), getPairList c = .error (.jsonExc e) →
      read (.ok (geomDoc "MultiPoint" c)) = .error (.parseExc "Error parsing JSON")) ∧
    (∀ (c : Json) (e : JsonExc), getRingList c = .error (.jsonExc e) →
      read (.ok (geomDoc "MultiLineString" c)) =
        .error (.parseExc "Error parsing JSON")) ∧
    (∀ (c : Json) (e : JsonExc), getPolyList c = .error (.jsonExc e) →
      read (.ok (geomDoc "MultiPolygon" c)) = .error (.parseExc "Error parsing JSON")) ∧
    (∀ (c : Json) (e : JsonExc), getDoubleArray c = .error (.jsonExc e) →
      readFeatures (.ok (geomDoc "Point" c)) =
        .error (.parseExc "Error parsing JSON")) ∧
    (∀ (c : Json) (e : JsonExc), getPairList c = .error (.jsonExc e) →
      readFeatures (.ok (geomDoc "LineString" c)) =
        .error (.parseExc "Error parsing JSON")) ∧
    (∀ (c : Json) (e : JsonExc), getRingList c = .error (.jsonExc e) →
      readFeatures (.ok (geomDoc "Polygon" c)) =
        .error (.parseExc "Error parsing JSON")) ∧
    (∀ (c : Json) (e : JsonExc), getPairList c = .error (.jsonExc e) →
      readFeatures (.ok (geomDoc "MultiPoint" c)) =
        .error (.parseExc "Error parsing JSON")) ∧
    (∀ (c : Json) (e : JsonExc), getRingList c = .error (.jsonExc e) →
      readFeatures (.ok (geomDoc "MultiLineString" c)) =
        .error (.parseExc "Error parsing JSON")) ∧
    (∀ (c : Json) (e : JsonExc), getPolyList c = .error (.jsonExc e) →
      readFeatures (.ok (geomDoc "MultiPolygon" c)) =
        .error (.parseExc "Error parsing JSON")) := by
  refine ⟨?_, ?_, ?_, ?_, ?_, ?_, ?_, ?_, ?_, ?_, ?_, ?_⟩
  · intro c e h
    rw [read_ok]
    show catchJsonExc (readGeometry _) = _
    rw [readGeometry_doc_point, readPoint_conv_err h]
    rfl
  · intro c e h
    rw [read_ok]
    show catchJsonExc (readGeometry _) = _
    rw [readGeometry_doc_lineString, readLineString_conv_err h]
    rfl
  · intro c e h
    rw [read_ok]
    show catchJsonExc (readGeometry _) = _
    rw [readGeometry_doc_polygon, readPolygon_conv_err h]
    rfl
  · intro c e h
    rw [read_ok]
    show catchJsonExc (readGeometry _) = _
    rw [readGeometry_doc_multiPoint, readMultiPoint_conv_err h]
    rfl
  · intro c e h
    rw [read_ok]
    show catchJsonExc (readGeometry _) = _
    rw [readGeometry_doc_multiLineString, readMultiLineString_conv_err h]
    rfl
  · intro c e h
    rw [read_ok]
    show catchJsonExc (readGeometry _) = _
    rw [readGeometry_doc_multiPolygon, readMultiPolygon_conv_err h]
    rfl
  · intro c e h
    rw [readFeatures_ok]
    have hb : readFeaturesRaw (geomDoc "Point" c) =
        (readGeometry (geomDoc "Point" c)).bind
          (fun g => Except.ok [(⟨g, []⟩ : GeoJSONFeature)]) := rfl
    rw [hb, readGeometry_doc_point, readPoint_conv_err h]
    rfl
  · intro c e h
    rw [readFeatures_ok]
    have hb : readFeaturesRaw (geomDoc "LineString" c) =
        (readGeometry (geomDoc "LineString" c)).bind
          (fun g => Except.ok [(⟨g, []⟩ : GeoJSONFeature)]) := rfl
    rw [hb, readGeometry_doc_lineString, readLineString_conv_err h]
    rfl
  · intro c e h
    rw [readFeatures_ok]
    have hb : readFeaturesRaw (geomDoc "Polygon" c) =
        (readGeometry (geomDoc "Polygon" c)).bind
          (fun g => Except.ok [(⟨g, []⟩ : GeoJSONFeature)]) := rfl
    rw [hb, readGeometry_doc_polygon, readPolygon_conv_err h]
    rfl
  · intro c e h
    rw [readFeatures_ok]
    have hb : readFeaturesRaw (geomDoc "MultiPoint" c) =
        (readGeometry (geomDoc "MultiPoint" c)).bind
          (fun g => Except.ok [(⟨g, []⟩ : GeoJSONFeature)]) := rfl
    rw [hb, readGeometry_doc_multiPoint, readMultiPoint_conv_err h]
    rfl
  · intro c e h
    rw [readFeatures_ok]
    have hb : readFeaturesRaw (geomDoc "MultiLineString" c) =
        (readGeometry (geomDoc "MultiLineString" c)).bind
          (fun g => Except.ok [(⟨g, []⟩ : GeoJSONFeature)]) := rfl
    rw [hb, readGeometry_doc_multiLineString, readMultiLineString_conv_err h]
    rfl
  · intro c e h
    rw [readFeatures_ok]
    have hb : readFeaturesRaw (geomDoc "MultiPolygon" c) =
        (readGeometry (geomDoc "MultiPolygon" c)).bind
          (fun g => Except.ok [(⟨g, []⟩ : GeoJSONFeature)]) := rfl
    rw [hb, readGeometry_doc_multiPolygon, readMultiPolygon_conv_err h]
    rfl

/-- C10 witness: the uniform misshapen-coordinates law applied at concrete
inputs — a Polygon whose "coordinates" is the number 5, a Point whose
"coordinates" is the boolean true (a non-numeric leaf: the double
conversion accepts only numbers), and a MultiPolygon with one nesting
level missing, through both entry points. -/
theorem c10_misshapen_coordinates_uniform_error_witness :
    read (.ok (geomDoc "Polygon" (.num 5))) =
        .error (.parseExc "Error parsing JSON") ∧
      read (.ok (geomDoc "Point" (.bool true))) =
        .error (.parseExc "Error parsing JSON") ∧
      read (.ok (geomDoc "MultiPolygon"
          (.arr (.cons (.arr (.cons (.arr (.cons (.num 1) (.cons (.num 2) .nil)))
            .nil)) .nil)))) = .error (.parseExc "Error parsing JSON") ∧
      readFeatures (.ok (geomDoc "LineString" (.str "oops"))) =
        .error (.parseExc "Error parsing JSON") :=
  ⟨c10_misshapen_coordinates_uniform_error.2.2.1 (.num 5) (.typeError 302) rfl,
   c10_misshapen_coordinates_uniform_error.1 (.bool true) (.typeError 302)
     (by simp [getDoubleArray, getDoubles, getDouble, bind, Except.bind]),
   c10_misshapen_coordinates_uniform_error.2.2.2.2.2.1
     (.arr (.cons (.arr (.cons (.arr (.cons (.num 1) (.cons (.num 2) .nil)))
       .nil)) .nil)) (.typeError 304) (by rfl),
   c10_misshapen_coordinates_uniform_error.2.2.2.2.2.2.2.1 (.str "oops")
     (.typeError 302) rfl⟩

end GeoJSONReader
